import Mathlib

/-
Shallow embedding of the 2D physics core of the rust-lua-game-engine
repository, together with proofs about its collision detection, contact
resolution, scripting surface and tick driver.

Conventions of the embedding:
* Rust f32 values are modelled as exact rationals (ℚ); every constant that
  appears in the verified code paths (0.1, 0.5, 1.5, ...) is an exact
  dyadic rational, so the comparison and sign logic proved below does not
  depend on floating-point rounding.
* Rust HashMaps are modelled as association lists (List (Entity × β)) with
  a first-match lookup; Rust iteration order becomes list order.
* Rust panics (calls to .unwrap() on a missing entry) are modelled by
  Option-valued functions returning none.
-/

/-- Entity identifiers (src/src/components_systems/entity.rs wraps a u32;
modelled as ℕ). -/
abbrev Entity := Nat

/-- First-match lookup in an association list, modelling HashMap::get. -/
def alookup {β : Type} : List (Entity × β) → Entity → Option β
  | [], _ => none
  | p :: rest, k => if p.1 = k then some p.2 else alookup rest k

/-- Replacement of the value stored under a key, modelling a write through
HashMap::get_mut. -/
def aupd {β : Type} (l : List (Entity × β)) (k : Entity) (v : β) :
    List (Entity × β) :=
  l.map fun p => if p.1 = k then (k, v) else p

/-- A 2D vector of exact rationals, modelling cgmath Vector2 of f32 and the
[f32; 2] arrays of the source. -/
structure Vec2 where
  x : ℚ
  y : ℚ
deriving DecidableEq

/-- Collision/visual shape descriptor (the Shape2D enum of the physics_2d
module): axis-aligned rectangle with half-extents, or circle with radius. -/
inductive Shape2D where
  | rectangle (half_extents : Vec2)
  | circle (radius : ℚ)
deriving DecidableEq

/-- Modelled from the spec: the half-extent accessor of Shape2D used at
src/src/components_systems/physics_2d/collision.rs lines 59-64 is declared
in the physics_2d module, which is not under src/. A rectangle reports its
stored half-extents; a circle is treated through its bounding half-extents
(radius on each axis), consistent with Transform2D::get_size treating a
circle through its diameter per axis. -/
def Shape2D.half_extents : Shape2D → Vec2
  | .rectangle he => he
  | .circle r => ⟨r, r⟩

/-- Transform2D of src/src/components_systems/physics_2d/transform.rs. -/
structure Transform2D where
  position : Vec2
  shape : Shape2D
  scale : Vec2
  rotation_radians : ℚ
deriving DecidableEq

/-- Transform2D::get_scale_abs (transform.rs lines 22-24). -/
def Transform2D.get_scale_abs (t : Transform2D) : Vec2 :=
  ⟨|t.scale.x|, |t.scale.y|⟩

/-- Transform2D::get_size (transform.rs lines 25-45). -/
def Transform2D.get_size (t : Transform2D) : Vec2 :=
  match t.shape with
  | .rectangle he => ⟨he.x * 2 * |t.scale.x|, he.y * 2 * |t.scale.y|⟩
  | .circle r => ⟨r * 2 * |t.scale.x|, r * 2 * |t.scale.y|⟩

/-- Body kinematic types (the BodyType enum of the physics_2d module,
named at collision.rs lines 188-190 and engine.rs line 388). -/
inductive BodyType where
  | Static
  | Rigid
  | Kinematic
deriving DecidableEq

/-- PhysicsBody2D, with the fields constructed at engine.rs lines 380-392. -/
structure PhysicsBody2D where
  shape : Shape2D
  mass : ℚ
  body_type : BodyType
  velocity : Vec2
  position : Vec2
  force_accumulator : Vec2
deriving DecidableEq

/-- Area2D collider record, with the fields constructed at engine.rs lines
410-427: shape, size, offset, 8-bit masks and layers (modelled as ℕ with
bitwise and). -/
structure Area2D where
  shape : Shape2D
  size : Vec2
  offset : Vec2
  masks : Nat
  layers : Nat
deriving DecidableEq

/-- Collider roles (world.rs AreaRole, used at collision.rs line 39). -/
inductive AreaRole where
  | Physics
  | Sensor
deriving DecidableEq

/-- AreaInfo of world.rs: the owning entity plus the collider role. -/
structure AreaInfo where
  parent : Entity
  role : AreaRole
deriving DecidableEq

/-- The component stores of the physics World that the code under src/
reads and writes: physical colliders grouped by owning entity, physics
bodies, and transforms. world.rs itself is not under src/; the store shapes
are those dictated by the accesses in collision.rs, transform.rs and
engine.rs. Only the Physics-role collider store is modelled because only it
is touched by the sources under src/. -/
structure World where
  physical_colliders_2d : List (Entity × List (Entity × Area2D))
  physics_bodies_2d : List (Entity × PhysicsBody2D)
  transforms_2d : List (Entity × Transform2D)
deriving DecidableEq

/-- Modelled from the spec: World::get_area_by_info of world.rs (used at
collision.rs lines 159-179) is not under src/; per its uses it returns the
collider stored under the given id for the given owning entity and role. -/
def World.get_area_by_info (w : World) (id : Entity) (info : AreaInfo) :
    Option Area2D :=
  (alookup w.physical_colliders_2d info.parent).bind fun m => alookup m id

/-- CollisionPair (collision.rs lines 11-25). -/
structure CollisionPair where
  entity_a : Entity
  entity_b : Entity
  a_area_collider : Entity
  b_area_collider : Entity
  a_size : Vec2
  b_size : Vec2
  next_pos_a : Vec2
  next_pos_b : Vec2
  velocity_a : Vec2
  velocity_b : Vec2
  normal : Vec2
  penetration : ℚ
deriving DecidableEq

/-- The collider half-extents scaled by the absolute value of the owning
transform's scale (collision.rs lines 58-65). -/
def half_size (c : Area2D) (t : Transform2D) : Vec2 :=
  ⟨c.shape.half_extents.x * t.get_scale_abs.x,
   c.shape.half_extents.y * t.get_scale_abs.y⟩

/-- check_aabb_intersects (collision.rs lines 123-152). -/
def check_aabb_intersects (a_transform b_transform : Transform2D)
    (a_half b_half : Vec2) : Bool :=
  let a_min : Vec2 := ⟨a_transform.position.x - a_half.x,
                       a_transform.position.y - a_half.y⟩
  let a_max : Vec2 := ⟨a_transform.position.x + a_half.x,
                       a_transform.position.y + a_half.y⟩
  let b_min : Vec2 := ⟨b_transform.position.x - b_half.x,
                       b_transform.position.y - b_half.y⟩
  let b_max : Vec2 := ⟨b_transform.position.x + b_half.x,
                       b_transform.position.y + b_half.y⟩
  let overlap_x := decide (a_min.x ≤ b_max.x) && decide (a_max.x ≥ b_min.x)
  let overlap_y := decide (a_min.y ≤ b_max.y) && decide (a_max.y ≥ b_min.y)
  overlap_x && overlap_y

/-- The X-axis overlap depth computed at collision.rs line 77 for colliders
ca, cb with predicted transforms ta, tb. -/
def overlap_x_of (ca cb : Area2D) (ta tb : Transform2D) : ℚ :=
  min (ta.position.x + (half_size ca ta).x) (tb.position.x + (half_size cb tb).x)
  - max (ta.position.x - (half_size ca ta).x) (tb.position.x - (half_size cb tb).x)

/-- The Y-axis overlap depth computed at collision.rs line 78. -/
def overlap_y_of (ca cb : Area2D) (ta tb : Transform2D) : ℚ :=
  min (ta.position.y + (half_size ca ta).y) (tb.position.y + (half_size cb tb).y)
  - max (ta.position.y - (half_size ca ta).y) (tb.position.y - (half_size cb tb).y)

/-- The narrow phase of collision_system for one ordered collider pair with
both predicted states in hand (collision.rs lines 58-113): AABB test, axis
overlaps, minimum-translation normal and penetration, contact record. -/
def build_contact (a_parent : Entity) (aa : Entity × Area2D)
    (b_parent : Entity) (bb : Entity × Area2D)
    (a_next b_next : PhysicsBody2D × Transform2D) : Option CollisionPair :=
  let a_half := half_size aa.2 a_next.2
  let b_half := half_size bb.2 b_next.2
  if check_aabb_intersects a_next.2 b_next.2 a_half b_half then
    let overlap_x := overlap_x_of aa.2 bb.2 a_next.2 b_next.2
    let overlap_y := overlap_y_of aa.2 bb.2 a_next.2 b_next.2
    let normal : Vec2 :=
      if overlap_x < overlap_y then
        if a_next.2.position.x < b_next.2.position.x then ⟨1, 0⟩ else ⟨-1, 0⟩
      else
        if a_next.2.position.y < b_next.2.position.y then ⟨0, 1⟩ else ⟨0, -1⟩
    let penetration := if overlap_x < overlap_y then overlap_x else overlap_y
    some { entity_a := a_parent
           entity_b := b_parent
           a_area_collider := aa.1
           b_area_collider := bb.1
           a_size := a_next.2.get_size
           b_size := b_next.2.get_size
           next_pos_a := a_next.2.position
           next_pos_b := b_next.2.position
           velocity_a := a_next.1.velocity
           velocity_b := b_next.1.velocity
           normal := normal
           penetration := penetration }
  else none

/-- The per-collider-pair body of the collision_system loops (collision.rs
lines 50-115): skip self collider ids and mask-filtered pairs, then require
predicted states for both owners and run the narrow phase. -/
def contact_for_pair (next : List (Entity × (PhysicsBody2D × Transform2D)))
    (a_parent : Entity) (aa : Entity × Area2D)
    (b_parent : Entity) (bb : Entity × Area2D) : Option CollisionPair :=
  if aa.1 = bb.1 ∨ aa.2.masks &&& bb.2.layers = 0 then none
  else
    match alookup next a_parent, alookup next b_parent with
    | some a_next, some b_next => build_contact a_parent aa b_parent bb a_next b_next
    | _, _ => none

/-- collision_system (collision.rs lines 27-121). The call to
World::masks_overlap_layers at lines 36-45 targets world.rs, which is not
under src/; it is modelled from the spec as an abstract world-level
layer-group check passed in as the masks_overlap_layers argument. -/
def collision_system (world : World)
    (next : List (Entity × (PhysicsBody2D × Transform2D)))
    (masks_overlap_layers : AreaInfo → AreaInfo → Nat) : List CollisionPair :=
  world.physical_colliders_2d.flatMap fun ap =>
    ap.2.flatMap fun aa =>
      world.physical_colliders_2d.flatMap fun bp =>
        if masks_overlap_layers ⟨ap.1, AreaRole.Physics⟩ ⟨bp.1, AreaRole.Physics⟩ = 0
        then []
        else bp.2.filterMap fun bb => contact_for_pair next ap.1 aa bp.1 bb

/-- The slop-gated positional correction applied to side A's transform
(collision.rs lines 199-203 and 218-222): the MTV components are
subtracted from the position only if one of the signed components exceeds
the slop constant 0.1 (line 155). -/
def corrected_position (a_pos : Transform2D) (mtvx mtvy : ℚ) : Transform2D :=
  if mtvx > (0.1 : ℚ) ∨ mtvy > (0.1 : ℚ) then
    { a_pos with position := ⟨a_pos.position.x - mtvx, a_pos.position.y - mtvy⟩ }
  else a_pos

/-- The slide response applied to side A's body (collision.rs lines
205-210 and 224-229): remove the velocity component along the contact
normal when the dot product is nonzero. -/
def projected_body (a_body : PhysicsBody2D) (nx ny : ℚ) : PhysicsBody2D :=
  let dot := a_body.velocity.x * nx + a_body.velocity.y * ny
  if dot ≠ 0 then
    { a_body with velocity := ⟨a_body.velocity.x - dot * nx,
                               a_body.velocity.y - dot * ny⟩ }
  else a_body

/-- The per-contact body of the resolve_collisions loop (collision.rs lines
157-230). All five lookups use .unwrap() in the source, so a failing lookup
is a panic, modelled as none. Rigid-vs-Rigid applies half the MTV to side A
(lines 192-210), Rigid-vs-Static the full MTV (lines 211-229); any other
type combination leaves the world unchanged. -/
def resolve_one (w : World) (col : CollisionPair) : Option World :=
  match w.get_area_by_info col.a_area_collider ⟨col.entity_a, AreaRole.Physics⟩,
        w.get_area_by_info col.b_area_collider ⟨col.entity_b, AreaRole.Physics⟩,
        alookup w.physics_bodies_2d col.entity_b,
        alookup w.physics_bodies_2d col.entity_a,
        alookup w.transforms_2d col.entity_a with
  | some a_collider, some b_collider, some b_body, some a_body, some a_pos =>
    if a_body.body_type = BodyType.Rigid ∧ b_body.body_type = BodyType.Rigid ∧
        a_collider.masks &&& b_collider.layers ≠ 0 then
      let a_pos2 := corrected_position a_pos (col.normal.x * col.penetration * 0.5)
        (col.normal.y * col.penetration * 0.5)
      let a_body2 := projected_body a_body col.normal.x col.normal.y
      some { w with transforms_2d := aupd w.transforms_2d col.entity_a a_pos2
                    physics_bodies_2d := aupd w.physics_bodies_2d col.entity_a a_body2 }
    else if a_body.body_type = BodyType.Rigid ∧ b_body.body_type = BodyType.Static ∧
        a_collider.masks &&& b_collider.layers ≠ 0 then
      let a_pos2 := corrected_position a_pos (col.normal.x * col.penetration)
        (col.normal.y * col.penetration)
      let a_body2 := projected_body a_body col.normal.x col.normal.y
      some { w with transforms_2d := aupd w.transforms_2d col.entity_a a_pos2
                    physics_bodies_2d := aupd w.physics_bodies_2d col.entity_a a_body2 }
    else
      some w
  | _, _, _, _, _ => none

/-- resolve_collisions (collision.rs lines 154-232): fold resolve_one over
the contact list in emission order, propagating a panic as none. -/
def resolve_collisions (w : World) (cols : List CollisionPair) : Option World :=
  match cols with
  | [] => some w
  | c :: rest =>
    match resolve_one w c with
    | none => none
    | some w2 => resolve_collisions w2 rest

/-- The sub-step schedule of one Engine::update call (engine.rs lines
163-185): the frame's elapsed time dt is divided by
physics_iterations_per_frame and the physics pipeline runs that many times
with the divided dt. Engine::new sets physics_iterations_per_frame to 1
(engine.rs line 99). There is no leftover-time accumulator in the driver. -/
def update_substep_dts (physics_iterations_per_frame : Nat) (dt : ℚ) : List ℚ :=
  List.replicate physics_iterations_per_frame
    (dt / (physics_iterations_per_frame : ℚ))

/-- The sub-step schedule across a sequence of frames, each frame feeding
its whole elapsed wall time into Engine::update (engine.rs lines 710-723:
about_to_wait passes last_frame.elapsed() to update and then resets
last_frame). -/
def frames_substep_dts (physics_iterations_per_frame : Nat)
    (frames : List ℚ) : List ℚ :=
  frames.flatMap (update_substep_dts physics_iterations_per_frame)

/-- The Dimensions enum of engine.rs (lines 65-69). -/
inductive Dimensions where
  | Two
  | Three
deriving DecidableEq

/-- The slice of the Engine state (engine.rs lines 34-54) that the
scripting-surface operations verified here read and write. -/
structure Engine where
  world : World
  dimensions : Dimensions
deriving DecidableEq

/-- Modelled from the spec: PhysicsBody2D::apply_impulse (called at
engine.rs line 228) lives in the physics_2d module, which is not under
src/; per the data model, impulses land in the body's impulse/force
accumulator, which is drained into velocity at the next integration. -/
def PhysicsBody2D.apply_impulse (b : PhysicsBody2D) (fx fy : ℚ) : PhysicsBody2D :=
  { b with force_accumulator := ⟨b.force_accumulator.x + fx,
                                 b.force_accumulator.y + fy⟩ }

/-- Engine::apply_impulse_2d (engine.rs lines 223-229): unconditional
lookup with .unwrap(), so a missing entity is a panic (none). -/
def Engine.apply_impulse_2d (e : Engine) (id : Entity) (fx fy : ℚ) :
    Option Engine :=
  (alookup e.world.physics_bodies_2d id).map fun b =>
    let pb := aupd e.world.physics_bodies_2d id (b.apply_impulse fx fy)
    { e with world := { e.world with physics_bodies_2d := pb } }

/-- Engine::set_velocity_2d (engine.rs lines 231-237): .unwrap() lookup,
then overwrite the velocity. -/
def Engine.set_velocity_2d (e : Engine) (id : Entity) (vx vy : ℚ) :
    Option Engine :=
  (alookup e.world.physics_bodies_2d id).map fun b =>
    let pb := aupd e.world.physics_bodies_2d id { b with velocity := ⟨vx, vy⟩ }
    { e with world := { e.world with physics_bodies_2d := pb } }

/-- Engine::apply_move_2d (engine.rs lines 273-276): .unwrap() lookup, then
a direct position nudge on the body. -/
def Engine.apply_move_2d (e : Engine) (id : Entity) (dx dy : ℚ) :
    Option Engine :=
  (alookup e.world.physics_bodies_2d id).map fun b =>
    let b2 := { b with position := ⟨b.position.x + dx, b.position.y + dy⟩ }
    let pb := aupd e.world.physics_bodies_2d id b2
    { e with world := { e.world with physics_bodies_2d := pb } }

/-- Engine::get_velocity_2d (engine.rs lines 247-258): in 2D mode the
lookup is .unwrap() (panic on a missing entity); otherwise [0, 0]. -/
def Engine.get_velocity_2d (e : Engine) (id : Entity) : Option (ℚ × ℚ) :=
  if e.dimensions = Dimensions.Two then
    (alookup e.world.physics_bodies_2d id).map fun b => (b.velocity.x, b.velocity.y)
  else some (0, 0)

/-- Engine::get_position_2d (engine.rs lines 260-271): in 2D mode the
lookup is .unwrap() (panic on a missing entity); otherwise [0, 0]. -/
def Engine.get_position_2d (e : Engine) (id : Entity) : Option (ℚ × ℚ) :=
  if e.dimensions = Dimensions.Two then
    (alookup e.world.physics_bodies_2d id).map fun b => (b.position.x, b.position.y)
  else some (0, 0)

/-- A unit-square collider (rectangle with half-extents (1,1)) with the
given mask and layer bits, as built by Engine::create_body for a 2-by-2
body. -/
def demo_area (m l : Nat) : Area2D :=
  { shape := Shape2D.rectangle ⟨1, 1⟩, size := ⟨2, 2⟩, offset := ⟨0, 0⟩,
    masks := m, layers := l }

/-- A 2-by-2 rectangle transform at the given position with unit scale. -/
def demo_transform (px py : ℚ) : Transform2D :=
  { position := ⟨px, py⟩, shape := Shape2D.rectangle ⟨1, 1⟩,
    scale := ⟨1, 1⟩, rotation_radians := 0 }

/-- A 2-by-2 rectangle body of the given kinematic type, velocity and
position. -/
def demo_body (bt : BodyType) (vx vy px py : ℚ) : PhysicsBody2D :=
  { shape := Shape2D.rectangle ⟨1, 1⟩, mass := 1, body_type := bt,
    velocity := ⟨vx, vy⟩, position := ⟨px, py⟩, force_accumulator := ⟨0, 0⟩ }

/-- A layer-group check that lets every entity pair through, for the
concrete example worlds. -/
def mol_all (_a _b : AreaInfo) : Nat := 1

/-- Example world for the normal-direction convention: entity 1 (collider
11) can collide with entity 2 (collider 21); the reverse orientation is
mask-filtered out. -/
def w2 : World :=
  { physical_colliders_2d := [(1, [(11, demo_area 1 0)]), (2, [(21, demo_area 0 1)])],
    physics_bodies_2d := [(1, demo_body BodyType.Rigid 0 0 0 0),
                          (2, demo_body BodyType.Rigid 0 0 1.5 0)],
    transforms_2d := [(1, demo_transform 0 0), (2, demo_transform 1.5 0)] }

/-- Predicted states for w2: entity 1 at (0,0), entity 2 at (1.5,0). -/
def nx2 : List (Entity × (PhysicsBody2D × Transform2D)) :=
  [(1, (demo_body BodyType.Rigid 0 0 0 0, demo_transform 0 0)),
   (2, (demo_body BodyType.Rigid 0 0 1.5 0, demo_transform 1.5 0))]

/-- The single contact collision_system emits on w2/nx2. -/
def c2pair : CollisionPair :=
  { entity_a := 1, entity_b := 2, a_area_collider := 11, b_area_collider := 21,
    a_size := ⟨2, 2⟩, b_size := ⟨2, 2⟩, next_pos_a := ⟨0, 0⟩,
    next_pos_b := ⟨1.5, 0⟩, velocity_a := ⟨0, 0⟩, velocity_b := ⟨0, 0⟩,
    normal := ⟨1, 0⟩, penetration := 0.5 }

/-- Example world for the signed slop gate: rigid entity 1 sits to the
right of static entity 2, so the detector's normal is (-1,0). -/
def wc3 : World :=
  { physical_colliders_2d := [(1, [(31, demo_area 1 1)]), (2, [(32, demo_area 1 1)])],
    physics_bodies_2d := [(1, demo_body BodyType.Rigid 0 0 1 0),
                          (2, demo_body BodyType.Static 0 0 0 0)],
    transforms_2d := [(1, demo_transform 1 0), (2, demo_transform 0 0)] }

/-- A Rigid-vs-Static contact on wc3 with normal (-1,0) and penetration
0.5: its corrective magnitude 0.5 exceeds the slop 0.1, but both signed
MTV components are non-positive. -/
def col3 : CollisionPair :=
  { entity_a := 1, entity_b := 2, a_area_collider := 31, b_area_collider := 32,
    a_size := ⟨2, 2⟩, b_size := ⟨2, 2⟩, next_pos_a := ⟨1, 0⟩,
    next_pos_b := ⟨0, 0⟩, velocity_a := ⟨0, 0⟩, velocity_b := ⟨0, 0⟩,
    normal := ⟨-1, 0⟩, penetration := 0.5 }

/-- Example world for the positive-direction Rigid-vs-Static correction:
rigid entity 1 (velocity (2,0)) left of static entity 2. -/
def w3w : World :=
  { physical_colliders_2d := [(1, [(31, demo_area 1 1)]), (2, [(32, demo_area 1 1)])],
    physics_bodies_2d := [(1, demo_body BodyType.Rigid 2 0 0 0),
                          (2, demo_body BodyType.Static 0 0 1.5 0)],
    transforms_2d := [(1, demo_transform 0 0), (2, demo_transform 1.5 0)] }

/-- A Rigid-vs-Static contact on w3w with normal (1,0) and penetration
0.5, whose signed x MTV component 0.5 exceeds the slop. -/
def col3w : CollisionPair :=
  { entity_a := 1, entity_b := 2, a_area_collider := 31, b_area_collider := 32,
    a_size := ⟨2, 2⟩, b_size := ⟨2, 2⟩, next_pos_a := ⟨0, 0⟩,
    next_pos_b := ⟨1.5, 0⟩, velocity_a := ⟨2, 0⟩, velocity_b := ⟨0, 0⟩,
    normal := ⟨1, 0⟩, penetration := 0.5 }

/-- Example world for the slop threshold: rigid entity 1 barely penetrates
static entity 2. -/
def w4 : World :=
  { physical_colliders_2d := [(1, [(41, demo_area 1 1)]), (2, [(42, demo_area 1 1)])],
    physics_bodies_2d := [(1, demo_body BodyType.Rigid 0 3 0 0),
                          (2, demo_body BodyType.Static 0 0 1.95 0)],
    transforms_2d := [(1, demo_transform 0 0), (2, demo_transform 1.95 0)] }

/-- A detected Rigid-vs-Static contact on w4 whose MTV magnitude 0.05 is
below the slop 0.1 on both axes. -/
def col4 : CollisionPair :=
  { entity_a := 1, entity_b := 2, a_area_collider := 41, b_area_collider := 42,
    a_size := ⟨2, 2⟩, b_size := ⟨2, 2⟩, next_pos_a := ⟨0, 0⟩,
    next_pos_b := ⟨1.95, 0⟩, velocity_a := ⟨0, 3⟩, velocity_b := ⟨0, 0⟩,
    normal := ⟨1, 0⟩, penetration := 0.05 }

/-- Example world for the AABB overlap test case: entity 1 (collider 11)
at (0,0) and entity 2 (collider 21) at (1.5,0), both of size (2,2); only
the orientation with entity 1 as side a passes the mask filter. -/
def w5 : World :=
  { physical_colliders_2d := [(1, [(11, demo_area 1 0)]), (2, [(21, demo_area 0 1)])],
    physics_bodies_2d := [(1, demo_body BodyType.Rigid 0 0 0 0),
                          (2, demo_body BodyType.Rigid 0 0 1.5 0)],
    transforms_2d := [(1, demo_transform 0 0), (2, demo_transform 1.5 0)] }

/-- Predicted states with centers (0,0) and (1.5,0). -/
def nx5 : List (Entity × (PhysicsBody2D × Transform2D)) :=
  [(1, (demo_body BodyType.Rigid 0 0 0 0, demo_transform 0 0)),
   (2, (demo_body BodyType.Rigid 0 0 1.5 0, demo_transform 1.5 0))]

/-- Predicted states with the second center moved to (3,0). -/
def nx5b : List (Entity × (PhysicsBody2D × Transform2D)) :=
  [(1, (demo_body BodyType.Rigid 0 0 0 0, demo_transform 0 0)),
   (2, (demo_body BodyType.Rigid 0 0 3 0, demo_transform 3 0))]

/-- The contact expected from w5/nx5: penetration 0.5 along the X axis. -/
def c5pair : CollisionPair :=
  { entity_a := 1, entity_b := 2, a_area_collider := 11, b_area_collider := 21,
    a_size := ⟨2, 2⟩, b_size := ⟨2, 2⟩, next_pos_a := ⟨0, 0⟩,
    next_pos_b := ⟨1.5, 0⟩, velocity_a := ⟨0, 0⟩, velocity_b := ⟨0, 0⟩,
    normal := ⟨1, 0⟩, penetration := 0.5 }

/-- Example world for directional mask filtering: collider 11 of entity 1
has masks 4 and layers 1; collider 12 of entity 2 has masks 1 and layers
2. So 11's masks do not intersect 12's layers (4 AND 2 = 0), while the
reverse direction does intersect (1 AND 1 = 1). -/
def w6 : World :=
  { physical_colliders_2d := [(1, [(11, demo_area 4 1)]), (2, [(12, demo_area 1 2)])],
    physics_bodies_2d := [(1, demo_body BodyType.Rigid 0 0 0 0),
                          (2, demo_body BodyType.Rigid 0 0 1 0)],
    transforms_2d := [(1, demo_transform 0 0), (2, demo_transform 1 0)] }

/-- Predicted states for w6: the two bodies overlap. -/
def nx6 : List (Entity × (PhysicsBody2D × Transform2D)) :=
  [(1, (demo_body BodyType.Rigid 0 0 0 0, demo_transform 0 0)),
   (2, (demo_body BodyType.Rigid 0 0 1 0, demo_transform 1 0))]

/-- Example world for the contact invariants (unit normal, nonnegative
penetration). -/
def w7 : World :=
  { physical_colliders_2d := [(1, [(11, demo_area 1 0)]), (2, [(21, demo_area 0 1)])],
    physics_bodies_2d := [(1, demo_body BodyType.Rigid 0 0 0 0),
                          (2, demo_body BodyType.Rigid 0 0 1.5 0)],
    transforms_2d := [(1, demo_transform 0 0), (2, demo_transform 1.5 0)] }

/-- Predicted states for w7. -/
def nx7 : List (Entity × (PhysicsBody2D × Transform2D)) :=
  [(1, (demo_body BodyType.Rigid 0 0 0 0, demo_transform 0 0)),
   (2, (demo_body BodyType.Rigid 0 0 1.5 0, demo_transform 1.5 0))]

/-- The contact collision_system emits on w7/nx7. -/
def c7pair : CollisionPair :=
  { entity_a := 1, entity_b := 2, a_area_collider := 11, b_area_collider := 21,
    a_size := ⟨2, 2⟩, b_size := ⟨2, 2⟩, next_pos_a := ⟨0, 0⟩,
    next_pos_b := ⟨1.5, 0⟩, velocity_a := ⟨0, 0⟩, velocity_b := ⟨0, 0⟩,
    normal := ⟨1, 0⟩, penetration := 0.5 }

/-- Example world in which a single entity (7) owns two distinct physics
colliders 71 and 72; collider 71's masks intersect collider 72's layers,
the reverse orientation is mask-filtered out. -/
def w8 : World :=
  { physical_colliders_2d := [(7, [(71, demo_area 1 0), (72, demo_area 0 1)])],
    physics_bodies_2d := [(7, demo_body BodyType.Rigid 0 0 0 0)],
    transforms_2d := [(7, demo_transform 0 0)] }

/-- Predicted state for w8's single entity. -/
def nx8 : List (Entity × (PhysicsBody2D × Transform2D)) :=
  [(7, (demo_body BodyType.Rigid 0 0 0 0, demo_transform 0 0))]

/-- An engine in 2D mode whose world holds no entities at all. -/
def e9 : Engine :=
  { world := { physical_colliders_2d := [], physics_bodies_2d := [],
               transforms_2d := [] },
    dimensions := Dimensions.Two }

/-- Example world for velocity projection: rigid entity 1 (velocity (3,1))
in sub-slop contact with static entity 2. -/
def w10 : World :=
  { physical_colliders_2d := [(1, [(51, demo_area 1 1)]), (2, [(52, demo_area 1 1)])],
    physics_bodies_2d := [(1, demo_body BodyType.Rigid 3 1 0 0),
                          (2, demo_body BodyType.Static 0 0 1.95 0)],
    transforms_2d := [(1, demo_transform 0 0), (2, demo_transform 1.95 0)] }

/-- A Rigid-vs-Static contact on w10 with unit normal (1,0) and sub-slop
penetration 0.05. -/
def col10 : CollisionPair :=
  { entity_a := 1, entity_b := 2, a_area_collider := 51, b_area_collider := 52,
    a_size := ⟨2, 2⟩, b_size := ⟨2, 2⟩, next_pos_a := ⟨0, 0⟩,
    next_pos_b := ⟨1.95, 0⟩, velocity_a := ⟨3, 1⟩, velocity_b := ⟨0, 0⟩,
    normal := ⟨1, 0⟩, penetration := 0.05 }

/-- The contact collision_system emits on w8/nx8: both sides are owned by
entity 7, through the two distinct colliders 71 and 72. With identical
centers the axis overlaps tie at 2, so resolution is along Y with normal
(0,-1). -/
def c8pair : CollisionPair :=
  { entity_a := 7, entity_b := 7, a_area_collider := 71, b_area_collider := 72,
    a_size := ⟨2, 2⟩, b_size := ⟨2, 2⟩, next_pos_a := ⟨0, 0⟩,
    next_pos_b := ⟨0, 0⟩, velocity_a := ⟨0, 0⟩, velocity_b := ⟨0, 0⟩,
    normal := ⟨0, -1⟩, penetration := 2 }

/-- The world resolve_one produces from w3w and col3w: the rigid entity 1
is pushed back by the full MTV (0.5, 0) and its velocity along the normal
is removed. -/
def w3r : World :=
  { physical_colliders_2d := [(1, [(31, demo_area 1 1)]), (2, [(32, demo_area 1 1)])],
    physics_bodies_2d := [(1, demo_body BodyType.Rigid 0 0 0 0),
                          (2, demo_body BodyType.Static 0 0 1.5 0)],
    transforms_2d := [(1, demo_transform (-0.5) 0), (2, demo_transform 1.5 0)] }

/-- The world resolve_one produces from w10 and col10: the sub-slop
penetration leaves positions untouched, while the velocity component along
the normal (1,0) is removed, leaving velocity (0,1). -/
def w10r : World :=
  { physical_colliders_2d := [(1, [(51, demo_area 1 1)]), (2, [(52, demo_area 1 1)])],
    physics_bodies_2d := [(1, demo_body BodyType.Rigid 0 1 0 0),
                          (2, demo_body BodyType.Static 0 0 1.95 0)],
    transforms_2d := [(1, demo_transform 0 0), (2, demo_transform 1.95 0)] }

lemma alookup_aupd_ne {β : Type} (l : List (Entity × β)) (k j : Entity)
    (v : β) (h : j ≠ k) : alookup (aupd l k v) j = alookup l j := by
  induction l with
  | nil => rfl
  | cons p rest ih =>
    by_cases hk : p.1 = k
    · have hkj : ¬ (k = j) := fun hh => h hh.symm
      have hpj : ¬ (p.1 = j) := fun hh => h (hh ▸ hk)
      simpa [aupd, alookup, hk, hkj, hpj] using ih
    · by_cases hj : p.1 = j
      · simp [aupd, alookup, hk, hj, h]
      · simpa [aupd, alookup, hk, hj] using ih

lemma alookup_aupd_self {β : Type} (l : List (Entity × β)) (k : Entity)
    (v w0 : β) (h : alookup l k = some w0) :
    alookup (aupd l k v) k = some v := by
  induction l with
  | nil => simp [alookup] at h
  | cons p rest ih =>
    by_cases hk : p.1 = k
    · simp [aupd, alookup, hk]
    · rw [alookup, if_neg hk] at h
      simpa [aupd, alookup, hk] using ih h

lemma alookup_aupd_unchanged {β : Type} (l : List (Entity × β)) (k : Entity)
    (v : β) (h : alookup l k = some v) (j : Entity) :
    alookup (aupd l k v) j = alookup l j := by
  by_cases hj : j = k
  · subst hj
    rw [alookup_aupd_self l j v v h, h]
  · exact alookup_aupd_ne l k j v hj

lemma corrected_position_of_not_gate (t : Transform2D) (mx my : ℚ)
    (h : ¬ (mx > (0.1 : ℚ) ∨ my > (0.1 : ℚ))) :
    corrected_position t mx my = t := if_neg h

lemma projected_body_dot_zero (b : PhysicsBody2D) (nx ny : ℚ)
    (hn : nx ^ 2 + ny ^ 2 = 1) :
    (projected_body b nx ny).velocity.x * nx +
      (projected_body b nx ny).velocity.y * ny = 0 := by
  unfold projected_body
  by_cases hd : b.velocity.x * nx + b.velocity.y * ny = 0
  · simp [hd]
  · simp only [if_pos hd]
    have : (b.velocity.x - (b.velocity.x * nx + b.velocity.y * ny) * nx) * nx +
        (b.velocity.y - (b.velocity.x * nx + b.velocity.y * ny) * ny) * ny = 0 := by
      linear_combination (-(b.velocity.x * nx + b.velocity.y * ny)) * hn
    simpa using this

lemma resolve_collisions_singleton (w : World) (col : CollisionPair)
    (w' : World) (h : resolve_collisions w [col] = some w') :
    resolve_one w col = some w' := by
  cases hr : resolve_one w col with
  | none => simp [resolve_collisions, hr] at h
  | some w2 =>
    simp [resolve_collisions, hr] at h
    subst h
    rfl

lemma resolve_one_some_cases (w : World) (col : CollisionPair) (w' : World)
    (h : resolve_one w col = some w') :
    ∃ ac bc bbv abv apos,
      w.get_area_by_info col.a_area_collider ⟨col.entity_a, AreaRole.Physics⟩ = some ac ∧
      w.get_area_by_info col.b_area_collider ⟨col.entity_b, AreaRole.Physics⟩ = some bc ∧
      alookup w.physics_bodies_2d col.entity_b = some bbv ∧
      alookup w.physics_bodies_2d col.entity_a = some abv ∧
      alookup w.transforms_2d col.entity_a = some apos ∧
      ((abv.body_type = BodyType.Rigid ∧ bbv.body_type = BodyType.Rigid ∧
        ac.masks &&& bc.layers ≠ 0 ∧
        w' = { w with
               transforms_2d := aupd w.transforms_2d col.entity_a
                 (corrected_position apos (col.normal.x * col.penetration * 0.5)
                   (col.normal.y * col.penetration * 0.5))
               physics_bodies_2d := aupd w.physics_bodies_2d col.entity_a
                 (projected_body abv col.normal.x col.normal.y) }) ∨
       (abv.body_type = BodyType.Rigid ∧ bbv.body_type = BodyType.Static ∧
        ac.masks &&& bc.layers ≠ 0 ∧
        w' = { w with
               transforms_2d := aupd w.transforms_2d col.entity_a
                 (corrected_position apos (col.normal.x * col.penetration)
                   (col.normal.y * col.penetration))
               physics_bodies_2d := aupd w.physics_bodies_2d col.entity_a
                 (projected_body abv col.normal.x col.normal.y) }) ∨
       (¬ (abv.body_type = BodyType.Rigid ∧ bbv.body_type = BodyType.Rigid ∧
           ac.masks &&& bc.layers ≠ 0) ∧
        ¬ (abv.body_type = BodyType.Rigid ∧ bbv.body_type = BodyType.Static ∧
           ac.masks &&& bc.layers ≠ 0) ∧
        w' = w)) := by
  cases hac : w.get_area_by_info col.a_area_collider ⟨col.entity_a, AreaRole.Physics⟩ with
  | none => simp [resolve_one, hac] at h
  | some ac =>
  cases hbc : w.get_area_by_info col.b_area_collider ⟨col.entity_b, AreaRole.Physics⟩ with
  | none => simp [resolve_one, hac, hbc] at h
  | some bc =>
  cases hbb : alookup w.physics_bodies_2d col.entity_b with
  | none => simp [resolve_one, hac, hbc, hbb] at h
  | some bbv =>
  cases hab : alookup w.physics_bodies_2d col.entity_a with
  | none => simp [resolve_one, hac, hbc, hbb, hab] at h
  | some abv =>
  cases hat : alookup w.transforms_2d col.entity_a with
  | none => simp [resolve_one, hac, hbc, hbb, hab, hat] at h
  | some apos =>
  refine ⟨ac, bc, bbv, abv, apos, rfl, rfl, rfl, rfl, rfl, ?_⟩
  rw [resolve_one] at h
  rw [hac, hbc, hbb, hab, hat] at h
  by_cases c1 : abv.body_type = BodyType.Rigid ∧ bbv.body_type = BodyType.Rigid ∧
      ac.masks &&& bc.layers ≠ 0
  · left
    simp only [if_pos c1] at h
    exact ⟨c1.1, c1.2.1, c1.2.2, (Option.some_injective _ h).symm⟩
  · by_cases c2 : abv.body_type = BodyType.Rigid ∧ bbv.body_type = BodyType.Static ∧
        ac.masks &&& bc.layers ≠ 0
    · right; left
      simp only [if_neg c1, if_pos c2] at h
      exact ⟨c2.1, c2.2.1, c2.2.2, (Option.some_injective _ h).symm⟩
    · right; right
      simp only [if_neg c1, if_neg c2] at h
      exact ⟨c1, c2, (Option.some_injective _ h).symm⟩

lemma mem_collision_system_elim (w : World)
    (next : List (Entity × (PhysicsBody2D × Transform2D)))
    (masks_overlap_layers : AreaInfo → AreaInfo → Nat) (col : CollisionPair)
    (h : col ∈ collision_system w next masks_overlap_layers) :
    ∃ ap amap aa bp bmap bb,
      (ap, amap) ∈ w.physical_colliders_2d ∧ aa ∈ amap ∧
      (bp, bmap) ∈ w.physical_colliders_2d ∧ bb ∈ bmap ∧
      contact_for_pair next ap aa bp bb = some col := by
  rw [collision_system] at h
  rcases List.mem_flatMap.mp h with ⟨pa, hpa, h⟩
  rcases List.mem_flatMap.mp h with ⟨aa, haa, h⟩
  rcases List.mem_flatMap.mp h with ⟨pb, hpb, h⟩
  by_cases hz : masks_overlap_layers ⟨pa.1, AreaRole.Physics⟩ ⟨pb.1, AreaRole.Physics⟩ = 0
  · rw [if_pos hz] at h
    simp at h
  · rw [if_neg hz] at h
    rcases List.mem_filterMap.mp h with ⟨bb, hbb, hcc⟩
    exact ⟨pa.1, pa.2, aa, pb.1, pb.2, bb, hpa, haa, hpb, hbb, hcc⟩

lemma contact_for_pair_elim (next : List (Entity × (PhysicsBody2D × Transform2D)))
    (ap : Entity) (aa : Entity × Area2D) (bp : Entity) (bb : Entity × Area2D)
    (col : CollisionPair) (h : contact_for_pair next ap aa bp bb = some col) :
    aa.1 ≠ bb.1 ∧ aa.2.masks &&& bb.2.layers ≠ 0 ∧
    ∃ an bn, alookup next ap = some an ∧ alookup next bp = some bn ∧
      build_contact ap aa bp bb an bn = some col := by
  rw [contact_for_pair] at h
  by_cases hskip : aa.1 = bb.1 ∨ aa.2.masks &&& bb.2.layers = 0
  · rw [if_pos hskip] at h
    cases h
  · rw [if_neg hskip] at h
    rcases not_or.mp hskip with ⟨h1, h2⟩
    refine ⟨h1, h2, ?_⟩
    cases han : alookup next ap with
    | none => rw [han] at h; cases hbn : alookup next bp with
      | none => rw [hbn] at h; cases h
      | some bn => rw [hbn] at h; cases h
    | some an =>
      rw [han] at h
      cases hbn : alookup next bp with
      | none => rw [hbn] at h; cases h
      | some bn =>
        rw [hbn] at h
        exact ⟨an, bn, rfl, rfl, h⟩

lemma build_contact_elim (ap : Entity) (aa : Entity × Area2D) (bp : Entity)
    (bb : Entity × Area2D) (an bn : PhysicsBody2D × Transform2D)
    (col : CollisionPair) (h : build_contact ap aa bp bb an bn = some col) :
    check_aabb_intersects an.2 bn.2 (half_size aa.2 an.2) (half_size bb.2 bn.2) = true ∧
    col = { entity_a := ap
            entity_b := bp
            a_area_collider := aa.1
            b_area_collider := bb.1
            a_size := an.2.get_size
            b_size := bn.2.get_size
            next_pos_a := an.2.position
            next_pos_b := bn.2.position
            velocity_a := an.1.velocity
            velocity_b := bn.1.velocity
            normal :=
              if overlap_x_of aa.2 bb.2 an.2 bn.2 < overlap_y_of aa.2 bb.2 an.2 bn.2 then
                if an.2.position.x < bn.2.position.x then ⟨1, 0⟩ else ⟨-1, 0⟩
              else
                if an.2.position.y < bn.2.position.y then ⟨0, 1⟩ else ⟨0, -1⟩
            penetration :=
              if overlap_x_of aa.2 bb.2 an.2 bn.2 < overlap_y_of aa.2 bb.2 an.2 bn.2 then
                overlap_x_of aa.2 bb.2 an.2 bn.2
              else overlap_y_of aa.2 bb.2 an.2 bn.2 } := by
  rw [build_contact] at h
  by_cases hc : check_aabb_intersects an.2 bn.2 (half_size aa.2 an.2) (half_size bb.2 bn.2) = true
  · rw [if_pos hc] at h
    exact ⟨hc, (Option.some_injective _ h).symm⟩
  · rw [if_neg hc] at h
    cases h


/-- C1 (amended): Engine::update keeps no leftover-time accumulator. With
the configured physics_iterations_per_frame = 1, each frame runs exactly
one sub-step whose dt is the frame's entire elapsed wall time, so the
sub-step dts across any frame sequence are exactly the frame dts: nothing
is carried between frames and nothing is lost or duplicated, but there is
no fixed step and no accumulator threshold. -/
theorem tick_driver_no_accumulator (frames : List ℚ) :
    frames_substep_dts 1 frames = frames := by
  induction frames with
  | nil => rfl
  | cons d rest ih =>
    simp only [frames_substep_dts, List.flatMap_cons] at ih ⊢
    rw [ih]
    simp [update_substep_dts]

/-- C1 counterexample: feeding elapsed times 0.01, 0.01, 0.01 to the tick
driver runs three sub-steps (one per frame, each of dt 0.01), not exactly
one sub-step as the claimed accumulator with fixed step 1/60 would; the
driver has no accumulator at all (engine.rs lines 156-203). -/
theorem three_frames_three_substeps :
    frames_substep_dts 1 [0.01, 0.01, 0.01] = [0.01, 0.01, 0.01] ∧
    (frames_substep_dts 1 [0.01, 0.01, 0.01]).length ≠ 1 := by
  constructor
  · simp only [frames_substep_dts, update_substep_dts, List.flatMap_cons,
      List.flatMap_nil, List.replicate, List.cons_append, List.nil_append,
      List.append_nil]
    norm_num
  · simp only [frames_substep_dts, update_substep_dts, List.flatMap_cons,
      List.flatMap_nil, List.replicate, List.cons_append, List.nil_append,
      List.append_nil, List.length_cons, List.length_nil]
    norm_num

/-- C5: two axis-aligned rectangles with predicted centers (0,0) and
(1.5,0), each of size (2,2) (half-extents (1,1)), produce exactly one
contact, with penetration 0.5 along the X axis; moving the second center
to (3,0) produces no contact. -/
theorem aabb_overlap_example :
    collision_system w5 nx5 mol_all = [c5pair] ∧
    collision_system w5 nx5b mol_all = [] := by
  have m1 : (1 : Nat) &&& 1 = 1 := by decide
  have m2 : (1 : Nat) &&& 0 = 0 := by decide
  have m3 : (0 : Nat) &&& 0 = 0 := by decide
  have m4 : (0 : Nat) &&& 1 = 0 := by decide
  constructor
  · simp only [collision_system, contact_for_pair, build_contact,
      check_aabb_intersects, overlap_x_of, overlap_y_of, half_size,
      Shape2D.half_extents, Transform2D.get_scale_abs, Transform2D.get_size,
      alookup, w5, nx5, mol_all, demo_area, demo_transform, demo_body, c5pair,
      List.flatMap_cons, List.flatMap_nil, List.filterMap_cons,
      List.filterMap_nil, List.append_nil, List.nil_append, List.cons_append,
      m1, m2, m3, m4]
    norm_num
  · simp only [collision_system, contact_for_pair, build_contact,
      check_aabb_intersects, overlap_x_of, overlap_y_of, half_size,
      Shape2D.half_extents, Transform2D.get_scale_abs, Transform2D.get_size,
      alookup, w5, nx5b, mol_all, demo_area, demo_transform, demo_body,
      List.flatMap_cons, List.flatMap_nil, List.filterMap_cons,
      List.filterMap_nil, List.append_nil, List.nil_append, List.cons_append,
      m1, m2, m3, m4]
    norm_num

/-- C9: every scripting-surface operation that looks up an entity by id
(apply_impulse_2d, set_velocity_2d, apply_move_2d, get_velocity_2d,
get_position_2d) panics (returns none in this embedding) when the entity
has no physics body, rather than returning an error value (engine.rs lines
223-276). -/
theorem scripting_missing_entity_lookups_panic (e : Engine) (id : Entity)
    (fx fy vx vy dx dy : ℚ)
    (hmiss : alookup e.world.physics_bodies_2d id = none)
    (hdim : e.dimensions = Dimensions.Two) :
    e.apply_impulse_2d id fx fy = none ∧ e.set_velocity_2d id vx vy = none ∧
    e.apply_move_2d id dx dy = none ∧ e.get_velocity_2d id = none ∧
    e.get_position_2d id = none := by
  simp [Engine.apply_impulse_2d, Engine.set_velocity_2d, Engine.apply_move_2d,
        Engine.get_velocity_2d, Engine.get_position_2d, hmiss, hdim]

/-- C9 witness: the empty 2D engine e9 and entity id 0. -/
theorem scripting_missing_entity_lookups_panic_w :
    (alookup e9.world.physics_bodies_2d 0 = none ∧
     e9.dimensions = Dimensions.Two) ∧
    (e9.apply_impulse_2d 0 1 1 = none ∧ e9.set_velocity_2d 0 1 1 = none ∧
     e9.apply_move_2d 0 1 1 = none ∧ e9.get_velocity_2d 0 = none ∧
     e9.get_position_2d 0 = none) :=
  ⟨⟨by decide, by decide⟩,
   scripting_missing_entity_lookups_panic e9 0 1 1 1 1 1 1 (by decide) (by decide)⟩

/-- C3 counterexample: a Rigid-vs-Static contact (rigid entity 1, static
entity 2 in wc3, mask check passing) with normal (-1,0) and penetration
0.5, so the corrective magnitude 0.5 exceeds the slop 0.1 on the X axis;
yet resolution returns the world unchanged, because the slop gate at
collision.rs line 219 compares the signed MTV components (-0.5 and 0)
against 0.1 instead of their magnitudes, so no full-MTV correction is
applied. -/
theorem rigid_static_negative_mtv_cx :
    (alookup wc3.physics_bodies_2d 1).map PhysicsBody2D.body_type =
      some BodyType.Rigid ∧
    (alookup wc3.physics_bodies_2d 2).map PhysicsBody2D.body_type =
      some BodyType.Static ∧
    |col3.normal.x * col3.penetration| > (0.1 : ℚ) ∧
    resolve_one wc3 col3 = some wc3 := by
  have m1 : (1 : Nat) &&& 1 = 1 := by decide
  refine ⟨by simp [alookup, wc3, demo_body], by simp [alookup, wc3, demo_body],
    by simp only [col3, gt_iff_lt]; rw [lt_abs]; right; norm_num, ?_⟩
  simp only [resolve_one, World.get_area_by_info, alookup, wc3, col3, demo_area,
    demo_body, demo_transform, Option.some_bind, m1]
  norm_num [corrected_position, projected_body, aupd, alookup]

/-- C8 counterexample: on w8, where the single entity 7 owns the two
distinct colliders 71 and 72 with intersecting masks and layers,
collision_system emits exactly one contact, and its two owning entities
are both entity 7: the detector only skips identical collider ids
(collision.rs line 52), not identical owners. -/
theorem self_entity_contact_cx :
    (collision_system w8 nx8 mol_all).map
      (fun c => (c.entity_a, c.entity_b)) = [(7, 7)] := by
  have m1 : (1 : Nat) &&& 1 = 1 := by decide
  have m2 : (0 : Nat) &&& 0 = 0 := by decide
  simp only [collision_system, contact_for_pair, build_contact,
    check_aabb_intersects, overlap_x_of, overlap_y_of, half_size,
    Shape2D.half_extents, Transform2D.get_scale_abs, Transform2D.get_size,
    alookup, w8, nx8, mol_all, demo_area, demo_transform, demo_body,
    List.flatMap_cons, List.flatMap_nil, List.filterMap_cons,
    List.filterMap_nil, List.append_nil, List.nil_append, List.cons_append,
    m1, m2]
  norm_num

/-- C2 counterexample: on w2 (entity 1 at (0,0) left of entity 2 at
(1.5,0)), the emitted contact has normal (1,0), whose dot product with the
vector from B toward A (that is, next_pos_a minus next_pos_b) is negative:
the normal points from A toward B, not from B toward A as claimed
(collision.rs lines 80-92). -/
theorem normal_points_from_a_toward_b_cx :
    (collision_system w2 nx2 mol_all).map CollisionPair.normal =
      [⟨1, 0⟩] ∧
    ∀ c ∈ collision_system w2 nx2 mol_all,
      c.normal.x * (c.next_pos_a.x - c.next_pos_b.x) +
        c.normal.y * (c.next_pos_a.y - c.next_pos_b.y) < 0 := by
  have m1 : (1 : Nat) &&& 1 = 1 := by decide
  have m2 : (1 : Nat) &&& 0 = 0 := by decide
  have m3 : (0 : Nat) &&& 0 = 0 := by decide
  have m4 : (0 : Nat) &&& 1 = 0 := by decide
  have hlist : collision_system w2 nx2 mol_all = [c2pair] := by
    simp only [collision_system, contact_for_pair, build_contact,
      check_aabb_intersects, overlap_x_of, overlap_y_of, half_size,
      Shape2D.half_extents, Transform2D.get_scale_abs, Transform2D.get_size,
      alookup, w2, nx2, mol_all, demo_area, demo_transform, demo_body, c2pair,
      List.flatMap_cons, List.flatMap_nil, List.filterMap_cons,
      List.filterMap_nil, List.append_nil, List.nil_append, List.cons_append,
      m1, m2, m3, m4]
    norm_num
  rw [hlist]
  constructor
  · simp [c2pair]
  · intro c hc
    rw [List.mem_singleton] at hc
    subst hc
    norm_num [c2pair]

lemma w8_eval : collision_system w8 nx8 mol_all = [c8pair] := by
  have m1 : (1 : Nat) &&& 1 = 1 := by decide
  have m2 : (0 : Nat) &&& 0 = 0 := by decide
  simp only [collision_system, contact_for_pair, build_contact,
    check_aabb_intersects, overlap_x_of, overlap_y_of, half_size,
    Shape2D.half_extents, Transform2D.get_scale_abs, Transform2D.get_size,
    alookup, w8, nx8, mol_all, demo_area, demo_transform, demo_body, c8pair,
    List.flatMap_cons, List.flatMap_nil, List.filterMap_cons,
    List.filterMap_nil, List.append_nil, List.nil_append, List.cons_append,
    m1, m2]
  norm_num

/-- C8 (amended): collision_system never emits a contact whose two sides
are the same collider: the skip at collision.rs line 52 compares collider
ids, so emitted contacts always have distinct collider ids; it does not
compare owners, so contacts with entity_a equal to entity_b are emitted
when one entity owns two distinct colliders. -/
theorem no_self_collider_contact (w : World)
    (next : List (Entity × (PhysicsBody2D × Transform2D)))
    (mol : AreaInfo → AreaInfo → Nat) (col : CollisionPair)
    (h : col ∈ collision_system w next mol) :
    col.a_area_collider ≠ col.b_area_collider := by
  obtain ⟨ap, amap, aa, bp, bmap, bb, hpa, haa, hpb, hbbm, hcp⟩ :=
    mem_collision_system_elim w next mol col h
  obtain ⟨hne, hmask, an, bn, han, hbn, hbc⟩ :=
    contact_for_pair_elim next ap aa bp bb col hcp
  obtain ⟨hcab, hcol⟩ := build_contact_elim ap aa bp bb an bn col hbc
  subst hcol
  exact hne

/-- C8 witness: the contact emitted on w8 has distinct collider ids 71 and
72 (even though both sides are entity 7). -/
theorem no_self_collider_contact_w :
    c8pair ∈ collision_system w8 nx8 mol_all ∧
    c8pair.a_area_collider ≠ c8pair.b_area_collider := by
  have hmem : c8pair ∈ collision_system w8 nx8 mol_all := by
    rw [w8_eval]
    exact List.mem_singleton.mpr rfl
  exact ⟨hmem, no_self_collider_contact w8 nx8 mol_all c8pair hmem⟩

/-- C6: mask/layer filtering is directional per side: when every collider
stored as aid under entity ap has masks that do not intersect the layers
of every collider stored as bid under entity bp, collision_system emits no
contact with that orientation (entity ap as side a through collider aid
against entity bp through collider bid), regardless of the reverse
direction's mask bits (collision.rs line 52). -/
theorem mask_filter_directional (w : World)
    (next : List (Entity × (PhysicsBody2D × Transform2D)))
    (mol : AreaInfo → AreaInfo → Nat) (ap aid bp bid : Entity)
    (hzero : ∀ pa ∈ w.physical_colliders_2d, pa.1 = ap →
      ∀ a ∈ pa.2, a.1 = aid →
      ∀ pb ∈ w.physical_colliders_2d, pb.1 = bp →
      ∀ b ∈ pb.2, b.1 = bid →
      a.2.masks &&& b.2.layers = 0) :
    ∀ col ∈ collision_system w next mol,
      ¬ (col.entity_a = ap ∧ col.a_area_collider = aid ∧
         col.entity_b = bp ∧ col.b_area_collider = bid) := by
  intro col h hcon
  obtain ⟨ap', amap, aa, bp', bmap, bb, hpa, haa, hpb, hbbm, hcp⟩ :=
    mem_collision_system_elim w next mol col h
  obtain ⟨hne, hmask, an, bn, han, hbn, hbc⟩ :=
    contact_for_pair_elim next ap' aa bp' bb col hcp
  obtain ⟨hcab, hcol⟩ := build_contact_elim ap' aa bp' bb an bn col hbc
  subst hcol
  obtain ⟨e1, e2, e3, e4⟩ := hcon
  exact hmask (hzero (ap', amap) hpa e1 aa haa e2 (bp', bmap) hpb e3 bb hbbm e4)

/-- C6 witness: on w6, collider 11 of entity 1 has masks 4 against
collider 12 of entity 2 with layers 2 (4 AND 2 = 0), while the reverse
direction intersects (12's masks 1 AND 11's layers 1 = 1); no contact with
entity 1 as side a through collider 11 is emitted. -/
theorem mask_filter_directional_w :
    (∀ pa ∈ w6.physical_colliders_2d, pa.1 = 1 →
      ∀ a ∈ pa.2, a.1 = 11 →
      ∀ pb ∈ w6.physical_colliders_2d, pb.1 = 2 →
      ∀ b ∈ pb.2, b.1 = 12 →
      a.2.masks &&& b.2.layers = 0) ∧
    (∀ col ∈ collision_system w6 nx6 mol_all,
      ¬ (col.entity_a = 1 ∧ col.a_area_collider = 11 ∧
         col.entity_b = 2 ∧ col.b_area_collider = 12)) :=
  ⟨by decide, mask_filter_directional w6 nx6 mol_all 1 11 2 12 (by decide)⟩

lemma ite_eq_min (a b : ℚ) : (if a < b then a else b) = min a b := by
  by_cases hab : a < b
  · rw [if_pos hab, min_eq_left hab.le]
  · rw [if_neg hab, min_eq_right (le_of_not_lt hab)]

/-- C2 (amended): every contact emitted by collision_system takes its
separation axis and penetration from the smaller axis overlap (X only when
the X overlap is strictly smaller, so equal overlaps resolve along Y), the
direction along that axis follows the sign of the positional difference of
the two predicted centers, and the normal points from A toward B: its dot
product with (B minus A) is nonnegative on each axis (collision.rs lines
77-98). -/
theorem collision_normal_min_axis_a_to_b (w : World)
    (next : List (Entity × (PhysicsBody2D × Transform2D)))
    (mol : AreaInfo → AreaInfo → Nat) (col : CollisionPair)
    (h : col ∈ collision_system w next mol) :
    ∃ ap amap aa bp bmap bb an bn,
      (ap, amap) ∈ w.physical_colliders_2d ∧ aa ∈ amap ∧
      (bp, bmap) ∈ w.physical_colliders_2d ∧ bb ∈ bmap ∧
      alookup next ap = some an ∧ alookup next bp = some bn ∧
      col.entity_a = ap ∧ col.entity_b = bp ∧
      col.a_area_collider = aa.1 ∧ col.b_area_collider = bb.1 ∧
      col.next_pos_a = an.2.position ∧ col.next_pos_b = bn.2.position ∧
      col.penetration =
        min (overlap_x_of aa.2 bb.2 an.2 bn.2) (overlap_y_of aa.2 bb.2 an.2 bn.2) ∧
      (overlap_x_of aa.2 bb.2 an.2 bn.2 < overlap_y_of aa.2 bb.2 an.2 bn.2 →
        col.normal.y = 0 ∧
        (an.2.position.x < bn.2.position.x → col.normal = ⟨1, 0⟩) ∧
        (¬ an.2.position.x < bn.2.position.x → col.normal = ⟨-1, 0⟩)) ∧
      (¬ overlap_x_of aa.2 bb.2 an.2 bn.2 < overlap_y_of aa.2 bb.2 an.2 bn.2 →
        col.normal.x = 0 ∧
        (an.2.position.y < bn.2.position.y → col.normal = ⟨0, 1⟩) ∧
        (¬ an.2.position.y < bn.2.position.y → col.normal = ⟨0, -1⟩)) ∧
      0 ≤ col.normal.x * (bn.2.position.x - an.2.position.x) ∧
      0 ≤ col.normal.y * (bn.2.position.y - an.2.position.y) := by
  obtain ⟨ap, amap, aa, bp, bmap, bb, hpa, haa, hpb, hbbm, hcp⟩ :=
    mem_collision_system_elim w next mol col h
  obtain ⟨hne, hmask, an, bn, han, hbn, hbc⟩ :=
    contact_for_pair_elim next ap aa bp bb col hcp
  obtain ⟨hcab, hcol⟩ := build_contact_elim ap aa bp bb an bn col hbc
  subst hcol
  refine ⟨ap, amap, aa, bp, bmap, bb, an, bn, hpa, haa, hpb, hbbm, han, hbn,
    rfl, rfl, rfl, rfl, rfl, rfl, ite_eq_min _ _, ?_, ?_, ?_, ?_⟩
  · intro hxy
    refine ⟨?_, ?_, ?_⟩
    · by_cases hx : an.2.position.x < bn.2.position.x <;> simp [hxy, hx]
    · intro hx
      simp [hxy, hx]
    · intro hx
      simp [hxy, hx]
  · intro hxy
    refine ⟨?_, ?_, ?_⟩
    · by_cases hy : an.2.position.y < bn.2.position.y <;> simp [hxy, hy]
    · intro hy
      simp [hxy, hy]
    · intro hy
      simp [hxy, hy]
  · by_cases hxy : overlap_x_of aa.2 bb.2 an.2 bn.2 < overlap_y_of aa.2 bb.2 an.2 bn.2
    · by_cases hx : an.2.position.x < bn.2.position.x
      · simp only [hxy, hx, if_true]
        simpa using sub_nonneg.mpr hx.le
      · simp only [hxy, hx, if_true, if_false]
        simpa [neg_sub] using sub_nonneg.mpr (le_of_not_lt hx)
    · by_cases hy : an.2.position.y < bn.2.position.y <;> simp [hxy, hy]
  · by_cases hxy : overlap_x_of aa.2 bb.2 an.2 bn.2 < overlap_y_of aa.2 bb.2 an.2 bn.2
    · by_cases hx : an.2.position.x < bn.2.position.x <;> simp [hxy, hx]
    · by_cases hy : an.2.position.y < bn.2.position.y
      · simp only [hxy, hy, if_true, if_false]
        simpa using sub_nonneg.mpr hy.le
      · simp only [hxy, hy, if_false]
        simpa [neg_sub] using sub_nonneg.mpr (le_of_not_lt hy)

lemma w2_eval : collision_system w2 nx2 mol_all = [c2pair] := by
  have m1 : (1 : Nat) &&& 1 = 1 := by decide
  have m2 : (1 : Nat) &&& 0 = 0 := by decide
  have m3 : (0 : Nat) &&& 0 = 0 := by decide
  have m4 : (0 : Nat) &&& 1 = 0 := by decide
  simp only [collision_system, contact_for_pair, build_contact,
    check_aabb_intersects, overlap_x_of, overlap_y_of, half_size,
    Shape2D.half_extents, Transform2D.get_scale_abs, Transform2D.get_size,
    alookup, w2, nx2, mol_all, demo_area, demo_transform, demo_body, c2pair,
    List.flatMap_cons, List.flatMap_nil, List.filterMap_cons,
    List.filterMap_nil, List.append_nil, List.nil_append, List.cons_append,
    m1, m2, m3, m4]
  norm_num

/-- C2 witness: the contact emitted on w2 instantiates the minimum-axis
and from-A-toward-B normal convention. -/
theorem collision_normal_min_axis_a_to_b_w :
    c2pair ∈ collision_system w2 nx2 mol_all ∧
    (∃ ap amap aa bp bmap bb an bn,
      (ap, amap) ∈ w2.physical_colliders_2d ∧ aa ∈ amap ∧
      (bp, bmap) ∈ w2.physical_colliders_2d ∧ bb ∈ bmap ∧
      alookup nx2 ap = some an ∧ alookup nx2 bp = some bn ∧
      c2pair.entity_a = ap ∧ c2pair.entity_b = bp ∧
      c2pair.a_area_collider = aa.1 ∧ c2pair.b_area_collider = bb.1 ∧
      c2pair.next_pos_a = an.2.position ∧ c2pair.next_pos_b = bn.2.position ∧
      c2pair.penetration =
        min (overlap_x_of aa.2 bb.2 an.2 bn.2) (overlap_y_of aa.2 bb.2 an.2 bn.2) ∧
      (overlap_x_of aa.2 bb.2 an.2 bn.2 < overlap_y_of aa.2 bb.2 an.2 bn.2 →
        c2pair.normal.y = 0 ∧
        (an.2.position.x < bn.2.position.x → c2pair.normal = ⟨1, 0⟩) ∧
        (¬ an.2.position.x < bn.2.position.x → c2pair.normal = ⟨-1, 0⟩)) ∧
      (¬ overlap_x_of aa.2 bb.2 an.2 bn.2 < overlap_y_of aa.2 bb.2 an.2 bn.2 →
        c2pair.normal.x = 0 ∧
        (an.2.position.y < bn.2.position.y → c2pair.normal = ⟨0, 1⟩) ∧
        (¬ an.2.position.y < bn.2.position.y → c2pair.normal = ⟨0, -1⟩)) ∧
      0 ≤ c2pair.normal.x * (bn.2.position.x - an.2.position.x) ∧
      0 ≤ c2pair.normal.y * (bn.2.position.y - an.2.position.y)) := by
  have hmem : c2pair ∈ collision_system w2 nx2 mol_all := by
    rw [w2_eval]
    exact List.mem_singleton.mpr rfl
  exact ⟨hmem, collision_normal_min_axis_a_to_b w2 nx2 mol_all c2pair hmem⟩

lemma w7_eval : collision_system w7 nx7 mol_all = [c7pair] := by
  have m1 : (1 : Nat) &&& 1 = 1 := by decide
  have m2 : (1 : Nat) &&& 0 = 0 := by decide
  have m3 : (0 : Nat) &&& 0 = 0 := by decide
  have m4 : (0 : Nat) &&& 1 = 0 := by decide
  simp only [collision_system, contact_for_pair, build_contact,
    check_aabb_intersects, overlap_x_of, overlap_y_of, half_size,
    Shape2D.half_extents, Transform2D.get_scale_abs, Transform2D.get_size,
    alookup, w7, nx7, mol_all, demo_area, demo_transform, demo_body, c7pair,
    List.flatMap_cons, List.flatMap_nil, List.filterMap_cons,
    List.filterMap_nil, List.append_nil, List.nil_append, List.cons_append,
    m1, m2, m3, m4]
  norm_num

/-- C7: every contact emitted by collision_system carries a unit-length
separation normal (one of the four axis unit vectors) and, provided every
registered collider has nonnegative half-extents, a penetration depth
greater than or equal to 0 (collision.rs lines 77-113). -/
theorem contact_unit_normal_nonneg_pen (w : World)
    (next : List (Entity × (PhysicsBody2D × Transform2D)))
    (mol : AreaInfo → AreaInfo → Nat) (col : CollisionPair)
    (hnn : ∀ p ∈ w.physical_colliders_2d, ∀ a ∈ p.2,
      0 ≤ a.2.shape.half_extents.x ∧ 0 ≤ a.2.shape.half_extents.y)
    (h : col ∈ collision_system w next mol) :
    col.normal.x ^ 2 + col.normal.y ^ 2 = 1 ∧ 0 ≤ col.penetration := by
  obtain ⟨ap, amap, aa, bp, bmap, bb, hpa, haa, hpb, hbbm, hcp⟩ :=
    mem_collision_system_elim w next mol col h
  obtain ⟨hne, hmask, an, bn, han, hbn, hbc⟩ :=
    contact_for_pair_elim next ap aa bp bb col hcp
  obtain ⟨hcab, hcol⟩ := build_contact_elim ap aa bp bb an bn col hbc
  subst hcol
  constructor
  · by_cases hxy : overlap_x_of aa.2 bb.2 an.2 bn.2 < overlap_y_of aa.2 bb.2 an.2 bn.2
    · by_cases hx : an.2.position.x < bn.2.position.x <;> norm_num [hxy, hx]
    · by_cases hy : an.2.position.y < bn.2.position.y <;> norm_num [hxy, hy]
  · have haann := hnn (ap, amap) hpa aa haa
    have hbbnn := hnn (bp, bmap) hpb bb hbbm
    have hax : 0 ≤ (half_size aa.2 an.2).x := by
      simp only [half_size, Transform2D.get_scale_abs]
      exact mul_nonneg haann.1 (abs_nonneg _)
    have hay : 0 ≤ (half_size aa.2 an.2).y := by
      simp only [half_size, Transform2D.get_scale_abs]
      exact mul_nonneg haann.2 (abs_nonneg _)
    have hbx : 0 ≤ (half_size bb.2 bn.2).x := by
      simp only [half_size, Transform2D.get_scale_abs]
      exact mul_nonneg hbbnn.1 (abs_nonneg _)
    have hby : 0 ≤ (half_size bb.2 bn.2).y := by
      simp only [half_size, Transform2D.get_scale_abs]
      exact mul_nonneg hbbnn.2 (abs_nonneg _)
    have hc := hcab
    simp only [check_aabb_intersects, Bool.and_eq_true, decide_eq_true_eq] at hc
    obtain ⟨⟨h1, h2⟩, h3, h4⟩ := hc
    have hox : 0 ≤ overlap_x_of aa.2 bb.2 an.2 bn.2 := by
      rw [overlap_x_of]
      refine sub_nonneg.mpr (max_le (le_min ?_ ?_) (le_min ?_ ?_))
      · linarith
      · linarith
      · linarith
      · linarith
    have hoy : 0 ≤ overlap_y_of aa.2 bb.2 an.2 bn.2 := by
      rw [overlap_y_of]
      refine sub_nonneg.mpr (max_le (le_min ?_ ?_) (le_min ?_ ?_))
      · linarith
      · linarith
      · linarith
      · linarith
    by_cases hxy : overlap_x_of aa.2 bb.2 an.2 bn.2 < overlap_y_of aa.2 bb.2 an.2 bn.2
    · simpa [hxy] using hox
    · simpa [hxy] using hoy

/-- C7 witness: the contact emitted on w7 has unit normal (1,0) and
penetration 0.5. -/
theorem contact_unit_normal_nonneg_pen_w :
    (∀ p ∈ w7.physical_colliders_2d, ∀ a ∈ p.2,
      0 ≤ a.2.shape.half_extents.x ∧ 0 ≤ a.2.shape.half_extents.y) ∧
    c7pair ∈ collision_system w7 nx7 mol_all ∧
    (c7pair.normal.x ^ 2 + c7pair.normal.y ^ 2 = 1 ∧ 0 ≤ c7pair.penetration) := by
  have hnn : ∀ p ∈ w7.physical_colliders_2d, ∀ a ∈ p.2,
      0 ≤ a.2.shape.half_extents.x ∧ 0 ≤ a.2.shape.half_extents.y := by
    norm_num [w7, demo_area, Shape2D.half_extents]
  have hmem : c7pair ∈ collision_system w7 nx7 mol_all := by
    rw [w7_eval]
    exact List.mem_singleton.mpr rfl
  exact ⟨hnn, hmem, contact_unit_normal_nonneg_pen w7 nx7 mol_all c7pair hnn hmem⟩

/-- C4: for every contact whose MTV magnitude is below 0.1 on both axes,
resolve_collisions leaves every stored transform (hence every position)
unchanged, whatever the mask and body-type situation: both slop gates
(collision.rs lines 200 and 219) fail, and transforms are only ever
written under those gates. -/
theorem subslop_positions_unchanged (w w' : World) (col : CollisionPair)
    (hx : |col.normal.x * col.penetration| < (0.1 : ℚ))
    (hy : |col.normal.y * col.penetration| < (0.1 : ℚ))
    (h : resolve_collisions w [col] = some w') :
    ∀ e, alookup w'.transforms_2d e = alookup w.transforms_2d e := by
  have h1 := resolve_collisions_singleton w col w' h
  obtain ⟨ac, bc, bbv, abv, apos, hac, hbc, hbb, hab, hat, hcases⟩ :=
    resolve_one_some_cases w col w' h1
  have hx2 := (abs_lt.mp hx).2
  have hy2 := (abs_lt.mp hy).2
  have g1 : ¬ (col.normal.x * col.penetration * 0.5 > (0.1 : ℚ) ∨
               col.normal.y * col.penetration * 0.5 > (0.1 : ℚ)) := by
    push_neg
    constructor <;> nlinarith
  have g2 : ¬ (col.normal.x * col.penetration > (0.1 : ℚ) ∨
               col.normal.y * col.penetration > (0.1 : ℚ)) := by
    push_neg
    exact ⟨hx2.le, hy2.le⟩
  rcases hcases with ⟨_, _, _, hw⟩ | ⟨_, _, _, hw⟩ | ⟨_, _, hw⟩
  · subst hw
    intro e
    have hcp := corrected_position_of_not_gate apos
      (col.normal.x * col.penetration * 0.5) (col.normal.y * col.penetration * 0.5) g1
    show alookup (aupd w.transforms_2d col.entity_a
      (corrected_position apos (col.normal.x * col.penetration * 0.5)
        (col.normal.y * col.penetration * 0.5))) e = alookup w.transforms_2d e
    rw [hcp]
    exact alookup_aupd_unchanged w.transforms_2d col.entity_a apos hat e
  · subst hw
    intro e
    have hcp := corrected_position_of_not_gate apos
      (col.normal.x * col.penetration) (col.normal.y * col.penetration) g2
    show alookup (aupd w.transforms_2d col.entity_a
      (corrected_position apos (col.normal.x * col.penetration)
        (col.normal.y * col.penetration))) e = alookup w.transforms_2d e
    rw [hcp]
    exact alookup_aupd_unchanged w.transforms_2d col.entity_a apos hat e
  · subst hw
    intro e
    rfl

lemma w4_res_one : resolve_one w4 col4 = some w4 := by
  have m1 : (1 : Nat) &&& 1 = 1 := by decide
  simp only [resolve_one, World.get_area_by_info, alookup, w4, col4, demo_area,
    demo_body, demo_transform, Option.some_bind, m1]
  norm_num [corrected_position, projected_body, aupd, alookup]

lemma w4_res : resolve_collisions w4 [col4] = some w4 := by
  simp [resolve_collisions, w4_res_one]

/-- C4 witness: the sub-slop Rigid-vs-Static contact col4 on w4 (MTV
magnitude 0.05 on X, 0 on Y) resolves to an unchanged world. -/
theorem subslop_positions_unchanged_w :
    (|col4.normal.x * col4.penetration| < (0.1 : ℚ) ∧
     |col4.normal.y * col4.penetration| < (0.1 : ℚ) ∧
     resolve_collisions w4 [col4] = some w4) ∧
    (∀ e, alookup w4.transforms_2d e = alookup w4.transforms_2d e) := by
  have hx : |col4.normal.x * col4.penetration| < (0.1 : ℚ) := by
    simp only [col4]
    rw [abs_lt]
    norm_num
  have hy : |col4.normal.y * col4.penetration| < (0.1 : ℚ) := by
    simp only [col4]
    rw [abs_lt]
    norm_num
  exact ⟨⟨hx, hy, w4_res⟩, subslop_positions_unchanged w4 w4 col4 hx hy w4_res⟩

/-- C3 (amended): resolving a Rigid-vs-Static contact never changes the
static body's (entity B's) stored body or transform, mutates only entity
A's entries, and applies the full MTV (normal times penetration, not
halved) to the rigid side's position whenever a signed MTV component
exceeds the slop 0.1 (collision.rs lines 211-230); a corrective magnitude
above slop pointing in a negative axis direction is not applied, because
the gate compares signed components. -/
theorem rigid_static_resolution (w w' : World) (col : CollisionPair)
    (bb ab : PhysicsBody2D)
    (hb : alookup w.physics_bodies_2d col.entity_b = some bb)
    (hbs : bb.body_type = BodyType.Static)
    (ha : alookup w.physics_bodies_2d col.entity_a = some ab)
    (har : ab.body_type = BodyType.Rigid)
    (h : resolve_collisions w [col] = some w') :
    (alookup w'.physics_bodies_2d col.entity_b = some bb ∧
     alookup w'.transforms_2d col.entity_b = alookup w.transforms_2d col.entity_b) ∧
    (∀ e, e ≠ col.entity_a →
      alookup w'.physics_bodies_2d e = alookup w.physics_bodies_2d e ∧
      alookup w'.transforms_2d e = alookup w.transforms_2d e) ∧
    (∀ ac2 bc2 t,
      w.get_area_by_info col.a_area_collider ⟨col.entity_a, AreaRole.Physics⟩ = some ac2 →
      w.get_area_by_info col.b_area_collider ⟨col.entity_b, AreaRole.Physics⟩ = some bc2 →
      ac2.masks &&& bc2.layers ≠ 0 →
      alookup w.transforms_2d col.entity_a = some t →
      (col.normal.x * col.penetration > (0.1 : ℚ) ∨
       col.normal.y * col.penetration > (0.1 : ℚ)) →
      ∃ t2, alookup w'.transforms_2d col.entity_a = some t2 ∧
        t2.position.x = t.position.x - col.normal.x * col.penetration ∧
        t2.position.y = t.position.y - col.normal.y * col.penetration) := by
  have h1 := resolve_collisions_singleton w col w' h
  obtain ⟨ac, bc, bbv, abv, apos, hac, hbc, hbbq, habq, hat, hcases⟩ :=
    resolve_one_some_cases w col w' h1
  have hbbe : bbv = bb := by
    rw [hbbq] at hb
    exact Option.some_injective _ hb
  have habe : abv = ab := by
    rw [habq] at ha
    exact Option.some_injective _ ha
  subst hbbe
  subst habe
  have hne : col.entity_a ≠ col.entity_b := by
    intro he
    have heq : abv = bbv := by
      rw [he] at habq
      rw [habq] at hbbq
      exact Option.some_injective _ hbbq
    rw [heq, hbs] at har
    exact absurd har (by decide)
  rcases hcases with ⟨_, hbr, _, _⟩ | ⟨_, _, hmk, hw⟩ | ⟨hc1, hc2, hw⟩
  · rw [hbs] at hbr
    exact absurd hbr (by decide)
  · subst hw
    refine ⟨⟨?_, ?_⟩, ?_, ?_⟩
    · show alookup (aupd w.physics_bodies_2d col.entity_a
        (projected_body abv col.normal.x col.normal.y)) col.entity_b = some bbv
      rw [alookup_aupd_ne _ _ _ _ (Ne.symm hne)]
      exact hbbq
    · show alookup (aupd w.transforms_2d col.entity_a
        (corrected_position apos (col.normal.x * col.penetration)
          (col.normal.y * col.penetration))) col.entity_b =
        alookup w.transforms_2d col.entity_b
      exact alookup_aupd_ne _ _ _ _ (Ne.symm hne)
    · intro e he
      constructor
      · show alookup (aupd w.physics_bodies_2d col.entity_a
          (projected_body abv col.normal.x col.normal.y)) e =
          alookup w.physics_bodies_2d e
        exact alookup_aupd_ne _ _ _ _ he
      · show alookup (aupd w.transforms_2d col.entity_a
          (corrected_position apos (col.normal.x * col.penetration)
            (col.normal.y * col.penetration))) e = alookup w.transforms_2d e
        exact alookup_aupd_ne _ _ _ _ he
    · intro ac2 bc2 t hac2 hbc2 hm ht hg
      have hte : t = apos := by
        rw [hat] at ht
        exact (Option.some_injective _ ht).symm
      subst hte
      refine ⟨corrected_position t (col.normal.x * col.penetration)
        (col.normal.y * col.penetration), ?_, ?_, ?_⟩
      · show alookup (aupd w.transforms_2d col.entity_a
          (corrected_position t (col.normal.x * col.penetration)
            (col.normal.y * col.penetration))) col.entity_a = _
        exact alookup_aupd_self _ _ _ _ hat
      · simp only [corrected_position, if_pos hg]
      · simp only [corrected_position, if_pos hg]
  · subst hw
    refine ⟨⟨?_, rfl⟩, fun e he => ⟨rfl, rfl⟩, ?_⟩
    · rw [hbbq]
    · intro ac2 bc2 t hac2 hbc2 hm ht hg
      exfalso
      apply hc2
      have hace : ac2 = ac := by
        rw [hac] at hac2
        exact (Option.some_injective _ hac2).symm
      have hbce : bc2 = bc := by
        rw [hbc] at hbc2
        exact (Option.some_injective _ hbc2).symm
      rw [hace, hbce] at hm
      exact ⟨har, hbs, hm⟩

lemma w3_res_one : resolve_one w3w col3w = some w3r := by
  have m1 : (1 : Nat) &&& 1 = 1 := by decide
  simp only [resolve_one, World.get_area_by_info, alookup, w3w, w3r, col3w,
    demo_area, demo_body, demo_transform, Option.some_bind, m1]
  norm_num [corrected_position, projected_body, aupd, alookup]
  decide

lemma w3_res : resolve_collisions w3w [col3w] = some w3r := by
  simp [resolve_collisions, w3_res_one]

/-- C3 witness: the Rigid-vs-Static contact col3w on w3w (normal (1,0),
penetration 0.5, so the signed x MTV component exceeds slop) leaves the
static entity 2 untouched and pushes the rigid entity 1 back by the full
MTV. -/
theorem rigid_static_resolution_w :
    (alookup w3w.physics_bodies_2d col3w.entity_b =
       some (demo_body BodyType.Static 0 0 1.5 0) ∧
     (demo_body BodyType.Static 0 0 1.5 0).body_type = BodyType.Static ∧
     alookup w3w.physics_bodies_2d col3w.entity_a =
       some (demo_body BodyType.Rigid 2 0 0 0) ∧
     (demo_body BodyType.Rigid 2 0 0 0).body_type = BodyType.Rigid ∧
     resolve_collisions w3w [col3w] = some w3r) ∧
    ((alookup w3r.physics_bodies_2d col3w.entity_b =
        some (demo_body BodyType.Static 0 0 1.5 0) ∧
      alookup w3r.transforms_2d col3w.entity_b =
        alookup w3w.transforms_2d col3w.entity_b) ∧
     (∀ e, e ≠ col3w.entity_a →
       alookup w3r.physics_bodies_2d e = alookup w3w.physics_bodies_2d e ∧
       alookup w3r.transforms_2d e = alookup w3w.transforms_2d e) ∧
     (∀ ac2 bc2 t,
       w3w.get_area_by_info col3w.a_area_collider
         ⟨col3w.entity_a, AreaRole.Physics⟩ = some ac2 →
       w3w.get_area_by_info col3w.b_area_collider
         ⟨col3w.entity_b, AreaRole.Physics⟩ = some bc2 →
       ac2.masks &&& bc2.layers ≠ 0 →
       alookup w3w.transforms_2d col3w.entity_a = some t →
       (col3w.normal.x * col3w.penetration > (0.1 : ℚ) ∨
        col3w.normal.y * col3w.penetration > (0.1 : ℚ)) →
       ∃ t2, alookup w3r.transforms_2d col3w.entity_a = some t2 ∧
         t2.position.x = t.position.x - col3w.normal.x * col3w.penetration ∧
         t2.position.y = t.position.y - col3w.normal.y * col3w.penetration)) := by
  have hb : alookup w3w.physics_bodies_2d col3w.entity_b =
      some (demo_body BodyType.Static 0 0 1.5 0) := by
    simp [w3w, col3w, alookup]
  have ha : alookup w3w.physics_bodies_2d col3w.entity_a =
      some (demo_body BodyType.Rigid 2 0 0 0) := by
    simp [w3w, col3w, alookup]
  exact ⟨⟨hb, rfl, ha, rfl, w3_res⟩,
    rigid_static_resolution w3w w3r col3w (demo_body BodyType.Static 0 0 1.5 0)
      (demo_body BodyType.Rigid 2 0 0 0) hb rfl ha rfl w3_res⟩

/-- C10: velocity projection is not gated by the slop threshold: for every
contact that passes the resolution-time mask check, with side A rigid and
side B rigid or static, and whose normal is unit length, resolve_collisions
leaves side A's velocity with zero dot product against the normal — with
no hypothesis on the penetration, so this holds in particular when the
penetration is below the 0.1 slop and no positional correction is applied
(collision.rs lines 205-210 and 224-229). -/
theorem velocity_projection_not_slop_gated (w w' : World) (col : CollisionPair)
    (ab bb : PhysicsBody2D) (ac bc : Area2D)
    (ha : alookup w.physics_bodies_2d col.entity_a = some ab)
    (har : ab.body_type = BodyType.Rigid)
    (hb : alookup w.physics_bodies_2d col.entity_b = some bb)
    (hbt : bb.body_type = BodyType.Rigid ∨ bb.body_type = BodyType.Static)
    (hac : w.get_area_by_info col.a_area_collider
      ⟨col.entity_a, AreaRole.Physics⟩ = some ac)
    (hbc : w.get_area_by_info col.b_area_collider
      ⟨col.entity_b, AreaRole.Physics⟩ = some bc)
    (hm : ac.masks &&& bc.layers ≠ 0)
    (hn : col.normal.x ^ 2 + col.normal.y ^ 2 = 1)
    (h : resolve_collisions w [col] = some w') :
    ∃ ab2, alookup w'.physics_bodies_2d col.entity_a = some ab2 ∧
      ab2.velocity.x * col.normal.x + ab2.velocity.y * col.normal.y = 0 := by
  have h1 := resolve_collisions_singleton w col w' h
  obtain ⟨ac', bc', bbv, abv, apos, hac', hbc', hbbq, habq, hat, hcases⟩ :=
    resolve_one_some_cases w col w' h1
  have habe : abv = ab := by
    rw [habq] at ha
    exact Option.some_injective _ ha
  have hbbe : bbv = bb := by
    rw [hbbq] at hb
    exact Option.some_injective _ hb
  have hace : ac' = ac := by
    rw [hac'] at hac
    exact Option.some_injective _ hac
  have hbce : bc' = bc := by
    rw [hbc'] at hbc
    exact Option.some_injective _ hbc
  subst habe
  subst hbbe
  subst hace
  subst hbce
  rcases hcases with ⟨_, _, _, hw⟩ | ⟨_, _, _, hw⟩ | ⟨hc1, hc2, _⟩
  · subst hw
    refine ⟨projected_body abv col.normal.x col.normal.y, ?_, ?_⟩
    · show alookup (aupd w.physics_bodies_2d col.entity_a
        (projected_body abv col.normal.x col.normal.y)) col.entity_a = _
      exact alookup_aupd_self _ _ _ _ habq
    · exact projected_body_dot_zero abv col.normal.x col.normal.y hn
  · subst hw
    refine ⟨projected_body abv col.normal.x col.normal.y, ?_, ?_⟩
    · show alookup (aupd w.physics_bodies_2d col.entity_a
        (projected_body abv col.normal.x col.normal.y)) col.entity_a = _
      exact alookup_aupd_self _ _ _ _ habq
    · exact projected_body_dot_zero abv col.normal.x col.normal.y hn
  · exfalso
    rcases hbt with hr | hs
    · exact hc1 ⟨har, hr, hm⟩
    · exact hc2 ⟨har, hs, hm⟩

lemma w10_res_one : resolve_one w10 col10 = some w10r := by
  have m1 : (1 : Nat) &&& 1 = 1 := by decide
  simp only [resolve_one, World.get_area_by_info, alookup, w10, w10r, col10,
    demo_area, demo_body, demo_transform, Option.some_bind, m1]
  norm_num [corrected_position, projected_body, aupd, alookup]

lemma w10_res : resolve_collisions w10 [col10] = some w10r := by
  simp [resolve_collisions, w10_res_one]

/-- C10 witness: the sub-slop Rigid-vs-Static contact col10 on w10 leaves
positions untouched yet projects the rigid side's velocity from (3,1) to
(0,1), which has zero dot product with the normal (1,0). -/
theorem velocity_projection_not_slop_gated_w :
    (alookup w10.physics_bodies_2d col10.entity_a =
       some (demo_body BodyType.Rigid 3 1 0 0) ∧
     (demo_body BodyType.Rigid 3 1 0 0).body_type = BodyType.Rigid ∧
     alookup w10.physics_bodies_2d col10.entity_b =
       some (demo_body BodyType.Static 0 0 1.95 0) ∧
     ((demo_body BodyType.Static 0 0 1.95 0).body_type = BodyType.Rigid ∨
      (demo_body BodyType.Static 0 0 1.95 0).body_type = BodyType.Static) ∧
     w10.get_area_by_info col10.a_area_collider
       ⟨col10.entity_a, AreaRole.Physics⟩ = some (demo_area 1 1) ∧
     w10.get_area_by_info col10.b_area_collider
       ⟨col10.entity_b, AreaRole.Physics⟩ = some (demo_area 1 1) ∧
     (demo_area 1 1).masks &&& (demo_area 1 1).layers ≠ 0 ∧
     col10.normal.x ^ 2 + col10.normal.y ^ 2 = 1 ∧
     resolve_collisions w10 [col10] = some w10r) ∧
    (∃ ab2, alookup w10r.physics_bodies_2d col10.entity_a = some ab2 ∧
      ab2.velocity.x * col10.normal.x + ab2.velocity.y * col10.normal.y = 0) := by
  have ha : alookup w10.physics_bodies_2d col10.entity_a =
      some (demo_body BodyType.Rigid 3 1 0 0) := by
    simp [w10, col10, alookup]
  have hb : alookup w10.physics_bodies_2d col10.entity_b =
      some (demo_body BodyType.Static 0 0 1.95 0) := by
    simp [w10, col10, alookup]
  have hac : w10.get_area_by_info col10.a_area_collider
      ⟨col10.entity_a, AreaRole.Physics⟩ = some (demo_area 1 1) := by
    simp [w10, col10, World.get_area_by_info, alookup]
  have hbc : w10.get_area_by_info col10.b_area_collider
      ⟨col10.entity_b, AreaRole.Physics⟩ = some (demo_area 1 1) := by
    simp [w10, col10, World.get_area_by_info, alookup]
  have hm : (demo_area 1 1).masks &&& (demo_area 1 1).layers ≠ 0 := by decide
  have hn : col10.normal.x ^ 2 + col10.normal.y ^ 2 = 1 := by norm_num [col10]
  exact ⟨⟨ha, rfl, hb, Or.inr rfl, hac, hbc, hm, hn, w10_res⟩,
    velocity_projection_not_slop_gated w10 w10r col10
      (demo_body BodyType.Rigid 3 1 0 0) (demo_body BodyType.Static 0 0 1.95 0)
      (demo_area 1 1) (demo_area 1 1) ha rfl hb (Or.inr rfl) hac hbc hm hn w10_res⟩
